import Mathlib

/-!
Verification development for the PSoC 6 simultaneous-sampling SAR ADC
example (`src/main.c`).  The firmware is a single control loop: two SAR
ADC completion interrupts set per-unit flags, the main loop waits until
both flags are set, clears them, reads both result registers, converts
the raw counts to volts, multiplies the two voltages, writes the scaled
product to the CTDAC and prints the two voltages over UART.

The development shallowly embeds:
  * the derived-output arithmetic of `main` (src/main.c:179-181);
  * the two interrupt handlers (src/main.c:296-306, 321-331);
  * the completion-synchronizer gate as a transition system over the
    pair of flags, at two granularities (the gate check treated as one
    step, and the check / clear-flag-0 / clear-flag-1 steps separate);
  * the raw-count-to-volts mapping (a PDL library call, modelled from
    the spec);
  * the per-iteration ordering of the main loop and the telemetry line.
-/

/-! ## Derived-output arithmetic (src/main.c:179-181)

`main` computes `product_result = resultV_0 * resultV_1` and then
`Cy_CTDAC_SetValue(CTDAC0, (int)(product_result*SCALING_FACTOR))`.
Physical voltages are modelled as exact rationals; the C `(int)` cast
truncates toward zero, which on rationals is floor for non-negative
arguments and ceiling for negative ones. -/

/-- `#define SCALING_FACTOR 372` (src/main.c:61). -/
def SCALING_FACTOR : ℚ := 372

/-- The C `(int)` cast on a real value: truncation toward zero. -/
def cIntCast (q : ℚ) : ℤ := if 0 ≤ q then ⌊q⌋ else ⌈q⌉

/-- `product_result = resultV_0 * resultV_1` (src/main.c:179). -/
def product_result (resultV_0 resultV_1 : ℚ) : ℚ := resultV_0 * resultV_1

/-- The value passed to `Cy_CTDAC_SetValue`:
`(int)(product_result*SCALING_FACTOR)` (src/main.c:181).
No clamp is applied by the source. -/
def ctdacSetArg (resultV_0 resultV_1 : ℚ) : ℤ :=
  cIntCast (product_result resultV_0 resultV_1 * SCALING_FACTOR)

/-- The CTDAC next-value register accepts codes 0 .. 4095
(src/main.c:54). -/
def deviceMaxCode : ℤ := 4095

/-- The spec's Derived-Output Computer (§4.5), following the spec's
words: `scaledCode = round(product * scaleFactor)` — rounding to the
nearest integer, not truncating. -/
def specScaledCode (physical0 physical1 : ℚ) : ℤ :=
  round (physical0 * physical1 * SCALING_FACTOR)

/-- C1: the source passes `(int)(product_result*SCALING_FACTOR)` to the
DAC with no clamp (src/main.c:181).  With a negative physical value
(`-1 V`, `1 V`) the code handed to the output device is `-372 < 0`, and
with inputs whose product exceeds the nominal maximum (`4 V`, `4 V`) it
is `5952 > 4095`: the value given to the Output Sink escapes
`[0, deviceMaxCode]`, contradicting the claim; the spec itself records
the missing clamp as a required fix, so this is a code bug. -/
theorem ctdacSetArg_escapes_device_range :
    ctdacSetArg (-1) 1 = -372 ∧ ¬ (0 ≤ ctdacSetArg (-1) 1) ∧
    ctdacSetArg 4 4 = 5952 ∧ deviceMaxCode < ctdacSetArg 4 4 := by
  have h1 : ctdacSetArg (-1) 1 = -372 := by
    norm_num [ctdacSetArg, cIntCast, product_result, SCALING_FACTOR]
    rw [show ((-372 : ℚ)) = ((-372 : ℤ) : ℚ) by norm_num, Int.ceil_intCast]
  have h2 : ctdacSetArg 4 4 = 5952 := by
    norm_num [ctdacSetArg, cIntCast, product_result, SCALING_FACTOR]
  refine ⟨h1, by rw [h1]; decide, h2, by rw [h2]; decide⟩

/-- C4 counterexample: the claim says the Derived-Output Computer rounds
(`scaledCode = round(product * scaleFactor)`), but the source truncates
via the C `(int)` cast (src/main.c:181).  At physical inputs `1 V` and
`1.9 V` the exact scaled product is `706.8`; the code produces `706`
while rounding would produce `707`. -/
theorem ctdacSetArg_differs_from_round :
    ctdacSetArg 1 (19/10) = 706 ∧ specScaledCode 1 (19/10) = 707 ∧
    ctdacSetArg 1 (19/10) ≠ specScaledCode 1 (19/10) := by
  have h1 : ctdacSetArg 1 (19/10) = 706 := by
    norm_num [ctdacSetArg, cIntCast, product_result, SCALING_FACTOR]
  have h2 : specScaledCode 1 (19/10) = 707 := by
    norm_num [specScaledCode, SCALING_FACTOR, round_eq]
  exact ⟨h1, h2, by rw [h1, h2]; decide⟩

/-- C4 amended: for every pair of physical input values the code passed
to the DAC is the product scaled by `SCALING_FACTOR` and then truncated
toward zero (not rounded): its absolute value is within one below the
exact scaled product's absolute value, and it has the sign of the exact
product. -/
theorem ctdacSetArg_truncates_toward_zero (v0 v1 : ℚ) :
    |(ctdacSetArg v0 v1 : ℚ)| ≤ |v0 * v1 * SCALING_FACTOR| ∧
    |v0 * v1 * SCALING_FACTOR| < |(ctdacSetArg v0 v1 : ℚ)| + 1 ∧
    (0 ≤ v0 * v1 * SCALING_FACTOR → 0 ≤ ctdacSetArg v0 v1) ∧
    (v0 * v1 * SCALING_FACTOR ≤ 0 → ctdacSetArg v0 v1 ≤ 0) := by
  unfold ctdacSetArg cIntCast product_result
  by_cases h : 0 ≤ v0 * v1 * SCALING_FACTOR
  · have hf0 : (0 : ℤ) ≤ ⌊v0 * v1 * SCALING_FACTOR⌋ := Int.floor_nonneg.mpr h
    have hfle := Int.floor_le (v0 * v1 * SCALING_FACTOR)
    have hflt := Int.lt_floor_add_one (v0 * v1 * SCALING_FACTOR)
    have hcast : (0 : ℚ) ≤ ((⌊v0 * v1 * SCALING_FACTOR⌋ : ℤ) : ℚ) := by
      exact_mod_cast hf0
    simp only [if_pos h]
    refine ⟨?_, ?_, fun _ => hf0, fun hle => ?_⟩
    · rw [abs_of_nonneg hcast, abs_of_nonneg h]; exact hfle
    · rw [abs_of_nonneg hcast, abs_of_nonneg h]; exact hflt
    · have : v0 * v1 * SCALING_FACTOR = 0 := le_antisymm hle h
      rw [this]; simp
  · have hlt : v0 * v1 * SCALING_FACTOR < 0 := not_le.mp h
    have hc0 : ⌈v0 * v1 * SCALING_FACTOR⌉ ≤ 0 :=
      Int.ceil_le.mpr (by exact_mod_cast hlt.le)
    have hcle := Int.le_ceil (v0 * v1 * SCALING_FACTOR)
    have hclt := Int.ceil_lt_add_one (v0 * v1 * SCALING_FACTOR)
    have hcast : ((⌈v0 * v1 * SCALING_FACTOR⌉ : ℤ) : ℚ) ≤ 0 := by
      exact_mod_cast hc0
    simp only [if_neg h]
    refine ⟨?_, ?_, fun hge => absurd hge h, fun _ => hc0⟩
    · rw [abs_of_nonpos hcast, abs_of_nonpos hlt.le]
      exact neg_le_neg hcle
    · rw [abs_of_nonpos hcast, abs_of_nonpos hlt.le]
      linarith

/-- Witness for `ctdacSetArg_truncates_toward_zero`: the sign clauses at
the concrete inputs `(1, 1.9)` (positive product) and `(-1, 1)`
(negative product). -/
theorem ctdacSetArg_truncates_toward_zero_witness :
    0 ≤ ctdacSetArg 1 (19/10) ∧ ctdacSetArg (-1) 1 ≤ 0 :=
  ⟨(ctdacSetArg_truncates_toward_zero 1 (19/10)).2.2.1
      (by norm_num [SCALING_FACTOR]),
   (ctdacSetArg_truncates_toward_zero (-1) 1).2.2.2
      (by norm_num [SCALING_FACTOR])⟩

/-- C5 counterexample: the claim says `compute(3.3, 3.3)` maps to the
output device's maximum code 4095, but
`(int)(3.3 * 3.3 * SCALING_FACTOR) = (int)(10.89 * 372) = 4051 ≠ 4095`
(src/main.c:61,181). -/
theorem ctdacSetArg_fullScale_ne_maxCode :
    ctdacSetArg (33/10) (33/10) = 4051 ∧
    ctdacSetArg (33/10) (33/10) ≠ deviceMaxCode := by
  have h : ctdacSetArg (33/10) (33/10) = 4051 := by
    norm_num [ctdacSetArg, cIntCast, product_result, SCALING_FACTOR]
  exact ⟨h, by rw [h]; decide⟩

/-- C5 amended: at the full-scale boundary `compute(3.3, 3.3)` yields
4051, which is at most (but not equal to) the device's maximum code
4095, with no overflow; and `compute(0, x)` yields code 0 for every
input `x`. -/
theorem ctdacSetArg_boundary_values :
    ctdacSetArg (33/10) (33/10) = 4051 ∧
    ctdacSetArg (33/10) (33/10) ≤ deviceMaxCode ∧
    ∀ x : ℚ, ctdacSetArg 0 x = 0 := by
  have h : ctdacSetArg (33/10) (33/10) = 4051 := by
    norm_num [ctdacSetArg, cIntCast, product_result, SCALING_FACTOR]
  refine ⟨h, by rw [h]; decide, fun x => ?_⟩
  simp [ctdacSetArg, product_result, cIntCast, SCALING_FACTOR]

/-! ## Completion flags and interrupt handlers (src/main.c:92-94, 296-331)

`static bool sar0_isr_set = false; static bool sar1_isr_set = false;`
Each handler checks `Cy_SAR_GetInterruptStatus(SARi) & CY_SAR_INTR_EOS`,
sets its own flag when the end-of-scan bit is present, and always calls
`Cy_SAR_ClearInterrupt(SARi, CY_SAR_INTR)`. -/

/-- The pair of module-level completion flags (src/main.c:93-94). -/
structure Flags where
  sar0_isr_set : Bool
  sar1_isr_set : Bool
  deriving DecidableEq

/-- Initial flag values: both `false` (src/main.c:93-94). -/
def flags0 : Flags := ⟨false, false⟩

/-- The PDL's end-of-scan interrupt bit, used as the mask in
`Cy_SAR_GetInterruptStatus(SARi) & CY_SAR_INTR_EOS`.  The PDL sources
are outside this repository; only the bit's role (a fixed non-zero mask
tested against the status word) matters here. -/
def CY_SAR_INTR_EOS : ℕ := 1

/-- The PDL's mask of all SAR interrupt causes, passed to
`Cy_SAR_ClearInterrupt` by both handlers. -/
def CY_SAR_INTR : ℕ := 7

/-- `sar0_interrupt` (src/main.c:296-306): sets `sar0_isr_set` when the
end-of-scan bit is present in the unit's interrupt status; returns the
updated flags together with the mask handed to `Cy_SAR_ClearInterrupt`,
which is `CY_SAR_INTR` unconditionally. -/
def sar0_interrupt (intrStatus : ℕ) (f : Flags) : Flags × ℕ :=
  let f' := if intrStatus &&& CY_SAR_INTR_EOS ≠ 0
    then { f with sar0_isr_set := true } else f
  (f', CY_SAR_INTR)

/-- `sar1_interrupt` (src/main.c:321-331), symmetric to
`sar0_interrupt` for unit 1. -/
def sar1_interrupt (intrStatus : ℕ) (f : Flags) : Flags × ℕ :=
  let f' := if intrStatus &&& CY_SAR_INTR_EOS ≠ 0
    then { f with sar1_isr_set := true } else f
  (f', CY_SAR_INTR)

/-- C10: a completion handler sets its ready flag exactly when the
end-of-scan bit is present in the unit's interrupt status; with the bit
absent the flags are left unchanged; and the unit's interrupts
(`CY_SAR_INTR`) are cleared in either case. -/
theorem sar_interrupt_eos_gating (intrStatus : ℕ) (f : Flags) :
    (intrStatus &&& CY_SAR_INTR_EOS ≠ 0 →
      (sar0_interrupt intrStatus f).1.sar0_isr_set = true ∧
      (sar1_interrupt intrStatus f).1.sar1_isr_set = true) ∧
    (intrStatus &&& CY_SAR_INTR_EOS = 0 →
      (sar0_interrupt intrStatus f).1 = f ∧
      (sar1_interrupt intrStatus f).1 = f) ∧
    (sar0_interrupt intrStatus f).2 = CY_SAR_INTR ∧
    (sar1_interrupt intrStatus f).2 = CY_SAR_INTR := by
  refine ⟨fun h => ?_, fun h => ?_, rfl, rfl⟩
  · simp [sar0_interrupt, sar1_interrupt, h]
  · simp [sar0_interrupt, sar1_interrupt, h]

/-- Witness for `sar_interrupt_eos_gating` at status words `1` (EOS bit
set) and `4` (EOS bit clear). -/
theorem sar_interrupt_eos_gating_witness :
    ((sar0_interrupt 1 flags0).1.sar0_isr_set = true ∧
     (sar1_interrupt 1 flags0).1.sar1_isr_set = true) ∧
    ((sar0_interrupt 4 flags0).1 = flags0 ∧
     (sar1_interrupt 4 flags0).1 = flags0) :=
  ⟨(sar_interrupt_eos_gating 1 flags0).1 (by decide),
   (sar_interrupt_eos_gating 4 flags0).2.1 (by decide)⟩

/-! ## Completion synchronizer, gate-level model (src/main.c:155-168)

The main loop waits in `while(!(sar0_isr_set & sar1_isr_set))` and, on
exit, clears both flags.  At this granularity a `gate_check` event is
the check together with the two clears; `eos0`/`eos1` events are the
handlers running with the end-of-scan bit set.  The finer granularity,
where the two clears are separate steps interleavable with the
handlers, is modelled below by `loopStep`. -/

/-- Events of the gate-level synchronizer model. -/
inductive GateEvent where
  | eos0 : GateEvent
  | eos1 : GateEvent
  | gate_check : GateEvent
  deriving DecidableEq

/-- One synchronizer step: handler events set their own flag
(src/main.c:301, 326); the gate check consumes-and-clears both flags
when both are set (src/main.c:161-168) and reports whether the gate
opened. -/
def gateStep (f : Flags) : GateEvent → Flags × Bool
  | .eos0 => ({ f with sar0_isr_set := true }, false)
  | .eos1 => ({ f with sar1_isr_set := true }, false)
  | .gate_check =>
      if f.sar0_isr_set && f.sar1_isr_set then (flags0, true) else (f, false)

/-- Run the synchronizer over a sequence of events. -/
def gateRun (f : Flags) : List GateEvent → Flags
  | [] => f
  | e :: t => gateRun (gateStep f e).1 t

/-- The events seen since the last gate opening (the events of the
current, not yet released, cycle): accumulated since the start or since
the most recent opening check, which resets the accumulator. -/
def pendingRun (f : Flags) (p : List GateEvent) : List GateEvent → List GateEvent
  | [] => p
  | e :: t =>
      if (gateStep f e).2 then pendingRun (gateStep f e).1 [] t
      else pendingRun (gateStep f e).1 (p ++ [e]) t

/-- `pendingRun` started from the initial state. -/
def pendingEvents (t : List GateEvent) : List GateEvent := pendingRun flags0 [] t

/-- Invariant: each flag is set exactly when its completion event
occurred since the last gate opening. -/
theorem gateRun_pending_inv (t : List GateEvent) :
    ∀ (f : Flags) (p : List GateEvent),
      (f.sar0_isr_set = true ↔ GateEvent.eos0 ∈ p) →
      (f.sar1_isr_set = true ↔ GateEvent.eos1 ∈ p) →
      ((gateRun f t).sar0_isr_set = true ↔ GateEvent.eos0 ∈ pendingRun f p t) ∧
      ((gateRun f t).sar1_isr_set = true ↔ GateEvent.eos1 ∈ pendingRun f p t) := by
  induction t with
  | nil => exact fun f p h0 h1 => ⟨h0, h1⟩
  | cons e t ih =>
      intro f p h0 h1
      cases e with
      | eos0 =>
          simp only [gateRun, pendingRun, gateStep]
          exact ih _ _ (by simp) (by simpa using h1)
      | eos1 =>
          simp only [gateRun, pendingRun, gateStep]
          exact ih _ _ (by simpa using h0) (by simp)
      | gate_check =>
          by_cases hb : (f.sar0_isr_set && f.sar1_isr_set) = true
          · simp only [gateRun, pendingRun, gateStep, hb, if_pos, if_true]
            exact ih _ _ (by simp [flags0]) (by simp [flags0])
          · simp only [gateRun, pendingRun, gateStep, hb, Bool.false_eq_true,
              if_false]
            exact ih _ _ (by simpa using h0) (by simpa using h1)

/-- C2: starting from the reset flags, after any sequence of
completion-signal arrivals and gate checks, (i) a gate check opens the
gate exactly when both `eos0` and `eos1` have occurred since the last
gate opening — in either arrival order, since the sequence is
arbitrary; (ii) each ready flag is set exactly when its signal has
occurred since the last opening; and (iii) the opening consumes the
pair: immediately after an opening check a second check does not open,
so each pair is processed exactly once. -/
theorem gate_opens_iff_both_arrived (t : List GateEvent) :
    ((gateStep (gateRun flags0 t) .gate_check).2 = true ↔
      (GateEvent.eos0 ∈ pendingEvents t ∧ GateEvent.eos1 ∈ pendingEvents t)) ∧
    ((gateRun flags0 t).sar0_isr_set = true ↔ GateEvent.eos0 ∈ pendingEvents t) ∧
    ((gateRun flags0 t).sar1_isr_set = true ↔ GateEvent.eos1 ∈ pendingEvents t) ∧
    ((gateStep (gateRun flags0 t) .gate_check).2 = true →
      (gateStep (gateStep (gateRun flags0 t) .gate_check).1 .gate_check).2
        = false) := by
  have inv := gateRun_pending_inv t flags0 [] (by simp [flags0]) (by simp [flags0])
  have hopen : (gateStep (gateRun flags0 t) .gate_check).2
      = ((gateRun flags0 t).sar0_isr_set && (gateRun flags0 t).sar1_isr_set) := by
    by_cases hb : ((gateRun flags0 t).sar0_isr_set
        && (gateRun flags0 t).sar1_isr_set) = true
    · simp [gateStep, hb]
    · simp [gateStep, hb]
  refine ⟨?_, inv.1, inv.2, ?_⟩
  · rw [hopen, Bool.and_eq_true]
    exact and_congr inv.1 inv.2
  · intro h
    have hreset : (gateStep (gateRun flags0 t) .gate_check).1 = flags0 := by
      rcases Bool.and_eq_true _ _ |>.mp (hopen ▸ h) with ⟨h0, h1⟩
      simp [gateStep, h0, h1]
    rw [hreset]
    decide

/-- Witness for `gate_opens_iff_both_arrived`: with the two signals
arriving in the order `eos1` then `eos0`, the next check opens the gate
and the check after that does not. -/
theorem gate_opens_iff_both_arrived_witness :
    (gateStep (gateRun flags0 [GateEvent.eos1, GateEvent.eos0])
        .gate_check).2 = true ∧
    (gateStep (gateStep (gateRun flags0 [GateEvent.eos1, GateEvent.eos0])
        .gate_check).1 .gate_check).2 = false :=
  ⟨(gate_opens_iff_both_arrived [GateEvent.eos1, GateEvent.eos0]).1.mpr
      ⟨by decide, by decide⟩,
   (gate_opens_iff_both_arrived [GateEvent.eos1, GateEvent.eos0]).2.2.2
      (by decide)⟩

/-- C8: single-writer-per-flag discipline — for every interrupt status
and flag state, the unit-0 handler never changes `sar1_isr_set` and the
unit-1 handler never changes `sar0_isr_set`; and whenever the main
loop's gate check changes either flag, it had observed both flags true
(it clears only after observing both set). -/
theorem single_writer_per_flag (intrStatus : ℕ) (f g : Flags) :
    (sar0_interrupt intrStatus f).1.sar1_isr_set = f.sar1_isr_set ∧
    (sar1_interrupt intrStatus f).1.sar0_isr_set = f.sar0_isr_set ∧
    (((gateStep g .gate_check).1.sar0_isr_set ≠ g.sar0_isr_set ∨
      (gateStep g .gate_check).1.sar1_isr_set ≠ g.sar1_isr_set) →
      g.sar0_isr_set = true ∧ g.sar1_isr_set = true) := by
  refine ⟨?_, ?_, ?_⟩
  · by_cases h : intrStatus &&& CY_SAR_INTR_EOS ≠ 0 <;>
      simp [sar0_interrupt, h]
  · by_cases h : intrStatus &&& CY_SAR_INTR_EOS ≠ 0 <;>
      simp [sar1_interrupt, h]
  · by_cases hb : (g.sar0_isr_set && g.sar1_isr_set) = true
    · exact fun _ => Bool.and_eq_true _ _ |>.mp hb
    · intro hchg
      rcases hchg with hc | hc <;> simp [gateStep, hb] at hc

/-- Witness for `single_writer_per_flag`: at the state with both flags
set, the gate check does change a flag, and both were indeed true. -/
theorem single_writer_per_flag_witness :
    (⟨true, true⟩ : Flags).sar0_isr_set = true ∧
    (⟨true, true⟩ : Flags).sar1_isr_set = true :=
  (single_writer_per_flag 0 flags0 ⟨true, true⟩).2.2 (Or.inl (by decide))

/-! ## Fine-grained interleaving model of the main loop (src/main.c:155-186)

In the source the flag clears are two ordinary stores executed after
the wait loop exits, with interrupts enabled; they are not atomic with
the gate check.  Program counter positions of the main loop:
  * `0` — at the gate check `while(!(sar0_isr_set & sar1_isr_set))`
    (src/main.c:161-164);
  * `1` — about to execute `sar0_isr_set = false` (src/main.c:167);
  * `2` — about to execute `sar1_isr_set = false` (src/main.c:168);
  * `3` — result-processing (src/main.c:170-184) and the UART drain of
    the next iteration (src/main.c:158), returning to the gate check.
Handler events (`eos0`, `eos1`, the handlers running with the
end-of-scan bit set) may interleave anywhere. -/

/-- Main-loop state at instruction granularity: the two flags plus the
main loop's program counter. -/
structure LoopState where
  sar0_isr_set : Bool
  sar1_isr_set : Bool
  pc : Fin 4
  deriving DecidableEq, Fintype

/-- Events: a unit's end-of-scan handler, or one main-loop step. -/
inductive LoopEvent where
  | eos0 : LoopEvent
  | eos1 : LoopEvent
  | mstep : LoopEvent
  deriving DecidableEq, Fintype

/-- One step of the interleaved system. -/
def loopStep (s : LoopState) : LoopEvent → LoopState
  | .eos0 => { s with sar0_isr_set := true }
  | .eos1 => { s with sar1_isr_set := true }
  | .mstep =>
      if s.pc = 0 then
        if s.sar0_isr_set && s.sar1_isr_set then { s with pc := 1 } else s
      else if s.pc = 1 then { s with sar0_isr_set := false, pc := 2 }
      else if s.pc = 2 then { s with sar1_isr_set := false, pc := 3 }
      else { s with pc := 0 }

/-- The gate opens at this event: a main-loop step at the gate check
with both flags observed true. -/
def loopOpens (s : LoopState) (e : LoopEvent) : Prop :=
  e = LoopEvent.mstep ∧ s.pc = 0 ∧
  s.sar0_isr_set = true ∧ s.sar1_isr_set = true

instance (s : LoopState) (e : LoopEvent) : Decidable (loopOpens s e) := by
  unfold loopOpens; infer_instance

/-- Run the interleaved system over a sequence of events. -/
def loopRun (s : LoopState) : List LoopEvent → LoopState
  | [] => s
  | e :: t => loopRun (loopStep s e) t

/-- The initial state: both flags false, main loop at the gate check. -/
def loop0 : LoopState := ⟨false, false, 0⟩

/-- C3 counterexample: an interleaving of handler and main-loop steps
in which a completion signal arriving during result-processing is
silently lost.  Trace: `eos0`, `eos1`, gate check (gate opens), then a
new `eos0` arrives before the main loop executes its two flag stores;
the store `sar0_isr_set = false` erases it.  Afterwards `eos1` arrives
and the main loop returns to the gate check: both signals have arrived
since the gate opening, yet `sar0_isr_set` reads false and the next
gate check does not open — the claim's "captured and counted toward
the next gate opening, for every interleaving" is false.  (Also,
immediately after the opening check itself both flags still read true:
the clears are separate, later steps.) -/
theorem lost_signal_interleaving :
    loopOpens (loopRun loop0 [LoopEvent.eos0, LoopEvent.eos1])
      LoopEvent.mstep ∧
    (loopRun loop0 [LoopEvent.eos0, LoopEvent.eos1, LoopEvent.mstep]
      = ⟨true, true, 1⟩) ∧
    (loopRun loop0 [LoopEvent.eos0, LoopEvent.eos1, LoopEvent.mstep,
        LoopEvent.eos0, LoopEvent.mstep, LoopEvent.mstep, LoopEvent.eos1,
        LoopEvent.mstep]
      = ⟨false, true, 0⟩) ∧
    ¬ loopOpens
        (loopRun loop0 [LoopEvent.eos0, LoopEvent.eos1, LoopEvent.mstep,
          LoopEvent.eos0, LoopEvent.mstep, LoopEvent.mstep, LoopEvent.eos1,
          LoopEvent.mstep])
        LoopEvent.mstep := by
  decide

/-- After a gate opening (pc = 1), the two uninterrupted main-loop
stores leave both flags false with the loop at result-processing. -/
lemma loopRun_clears_after_open (s : LoopState) :
    s.pc = 1 → loopRun s [LoopEvent.mstep, LoopEvent.mstep]
      = ⟨false, false, 3⟩ := by
  revert s; decide

/-- A latched unit-0 signal outside the check-to-clear window survives
every event that is not a gate opening. -/
lemma loopStep_preserves_sar0 (s : LoopState) :
    s.sar0_isr_set = true → s.pc ≠ 1 → ∀ e : LoopEvent, ¬ loopOpens s e →
      (loopStep s e).sar0_isr_set = true ∧ (loopStep s e).pc ≠ 1 := by
  revert s; decide

/-- A latched unit-1 signal outside the check-to-clear window survives
every event that is not a gate opening. -/
lemma loopStep_preserves_sar1 (s : LoopState) :
    s.sar1_isr_set = true → s.pc ≠ 1 → s.pc ≠ 2 →
      ∀ e : LoopEvent, ¬ loopOpens s e →
      (loopStep s e).sar1_isr_set = true ∧ (loopStep s e).pc ≠ 1 ∧
        (loopStep s e).pc ≠ 2 := by
  revert s; decide

/-- C3 amended: (i) once the gate has opened (pc = 1), running the two
flag-clear stores with no handler event interleaved leaves both flags
false at the start of result-processing; (ii) a unit-0 signal present
at any point other than immediately before the `sar0_isr_set = false`
store (pc ≠ 1) survives every non-opening event, so it is counted
toward the next gate opening; (iii) likewise a unit-1 signal present
with pc ∉ {1, 2} survives every non-opening event.  A signal arriving
in the window between the gate check and its flag's clear store is not
covered: as `lost_signal_interleaving` shows, it can be erased. -/
theorem flag_reset_window (s : LoopState) :
    (s.pc = 1 → loopRun s [LoopEvent.mstep, LoopEvent.mstep]
      = ⟨false, false, 3⟩) ∧
    (s.sar0_isr_set = true → s.pc ≠ 1 → ∀ e : LoopEvent, ¬ loopOpens s e →
      (loopStep s e).sar0_isr_set = true ∧ (loopStep s e).pc ≠ 1) ∧
    (s.sar1_isr_set = true → s.pc ≠ 1 → s.pc ≠ 2 →
      ∀ e : LoopEvent, ¬ loopOpens s e →
      (loopStep s e).sar1_isr_set = true ∧ (loopStep s e).pc ≠ 1 ∧
        (loopStep s e).pc ≠ 2) :=
  ⟨loopRun_clears_after_open s, loopStep_preserves_sar0 s,
   loopStep_preserves_sar1 s⟩

/-- Witness for `flag_reset_window`: after an opening (pc = 1, both
flags still set) the two stores leave `⟨false, false, 3⟩`; and a unit-1
signal landing during result-processing (pc = 3) of a state whose
unit-0 signal is already latched survives the handler event. -/
theorem flag_reset_window_witness :
    loopRun ⟨true, true, 1⟩ [LoopEvent.mstep, LoopEvent.mstep]
      = ⟨false, false, 3⟩ ∧
    ((loopStep ⟨true, false, 3⟩ LoopEvent.eos1).sar0_isr_set = true ∧
      (loopStep ⟨true, false, 3⟩ LoopEvent.eos1).pc ≠ 1) :=
  ⟨(flag_reset_window ⟨true, true, 1⟩).1 rfl,
   (flag_reset_window ⟨true, false, 3⟩).2.1 rfl (by decide)
      LoopEvent.eos1 (by decide)⟩

/-! ## Raw-count-to-volts mapping (src/main.c:174-176)

`resultV_i = Cy_SAR_CountsTo_Volts(SARi, 0, sar_resulti)`. -/

/-- Per-unit calibration: full-scale (reference) voltage and full-scale
code count.  Both SAR ADCs are configured single-ended with VREF =
VDDA = 3.3 V and 12-bit resolution (full-scale code count 4095). -/
structure Calibration where
  fullScaleVoltage : ℚ
  fullScaleCodeCount : ℕ

/-- Modelled from the spec: the Conversion-to-Value Mapper of §4.4,
implemented in the source by the PDL library call
`Cy_SAR_CountsTo_Volts` (src/main.c:175-176), whose code is not part of
this repository.  Spec: "The mapping is linear:
`physicalValue = rawCount * (fullScaleVoltage / fullScaleCodeCount)`,
using each unit's own calibration." -/
def rawToPhysical (rawCount : ℤ) (cal : Calibration) : ℚ :=
  rawCount * (cal.fullScaleVoltage / cal.fullScaleCodeCount)

/-- C6: the raw-count→physical mapping is linear in the raw count, so
it vanishes at raw count 0 and returns exactly the full-scale voltage
at the full-scale code count (exact rational arithmetic, hence within
any floating-point tolerance), for every calibration with a non-zero
code count. -/
theorem rawToPhysical_roundtrip (cal : Calibration)
    (h : cal.fullScaleCodeCount ≠ 0) :
    rawToPhysical 0 cal = 0 ∧
    rawToPhysical cal.fullScaleCodeCount cal = cal.fullScaleVoltage := by
  constructor
  · simp [rawToPhysical]
  · unfold rawToPhysical
    have hq : (cal.fullScaleCodeCount : ℚ) ≠ 0 := Nat.cast_ne_zero.mpr h
    push_cast
    field_simp

/-- Witness for `rawToPhysical_roundtrip` at the boards' calibration:
3.3 V full scale over 4095 codes. -/
theorem rawToPhysical_roundtrip_witness :
    rawToPhysical 0 ⟨33/10, 4095⟩ = 0 ∧
    rawToPhysical 4095 ⟨33/10, 4095⟩ = 33/10 :=
  rawToPhysical_roundtrip ⟨33/10, 4095⟩ (by decide)

/-! ## Per-iteration ordering of the control loop (src/main.c:155-186)

The body of `for (;;)` is straight-line code; its statements in source
order. -/

/-- The statements of one iteration of the main loop. -/
inductive MainStatement where
  | drain_uart_tx : MainStatement
  | wait_both_eos : MainStatement
  | clear_isr_flags : MainStatement
  | get_sar_results : MainStatement
  | counts_to_volts : MainStatement
  | set_ctdac_value : MainStatement
  | print_inputs : MainStatement
  deriving DecidableEq, BEq

/-- One iteration of the main loop in source order:
`while(cyhal_uart_is_tx_active(...))` (src/main.c:158), the wait for
both EOS flags (161-164), the flag clears (167-168), the result reads
(171-172), counts-to-volts (175-176), product-and-DAC (179-181), and
the printf (184). -/
def main_loop_body : List MainStatement :=
  [MainStatement.drain_uart_tx, MainStatement.wait_both_eos,
   MainStatement.clear_isr_flags, MainStatement.get_sar_results,
   MainStatement.counts_to_volts, MainStatement.set_ctdac_value,
   MainStatement.print_inputs]

/-- C7: in every iteration of the control loop the UART transport is
drained before the wait for both completions, and the results are read,
converted, output and printed only after the wait; each of these phases
occurs exactly once per iteration, so the per-cycle ordering is
drain, then wait, then process. -/
theorem main_loop_drain_wait_process_order :
    main_loop_body.indexOf MainStatement.drain_uart_tx
        < main_loop_body.indexOf MainStatement.wait_both_eos ∧
    main_loop_body.indexOf MainStatement.wait_both_eos
        < main_loop_body.indexOf MainStatement.get_sar_results ∧
    main_loop_body.indexOf MainStatement.get_sar_results
        < main_loop_body.indexOf MainStatement.counts_to_volts ∧
    main_loop_body.indexOf MainStatement.counts_to_volts
        < main_loop_body.indexOf MainStatement.set_ctdac_value ∧
    main_loop_body.indexOf MainStatement.set_ctdac_value
        < main_loop_body.indexOf MainStatement.print_inputs ∧
    main_loop_body.count MainStatement.drain_uart_tx = 1 ∧
    main_loop_body.count MainStatement.wait_both_eos = 1 ∧
    main_loop_body.count MainStatement.get_sar_results = 1 := by
  decide

/-! ## Telemetry line (src/main.c:184)

`printf("SAR0 input: %.2fV \t SAR1 input: %.2fV\r\n", resultV_0,
resultV_1)`, with `%.2f` modelled as fixed-point formatting with two
digits after the decimal point, rounding to the nearest hundredth. -/

/-- Fixed-point rendering of a rational with two digits after the
decimal point (the model of `%.2f`). -/
def fmt2 (q : ℚ) : String :=
  let n : ℤ := round (q * 100)
  let sign := if n < 0 then "-" else ""
  let m := n.natAbs
  sign ++ toString (m / 100) ++ "." ++
    String.mk [Nat.digitChar (m % 100 / 10), Nat.digitChar (m % 10)]

/-- The telemetry line emitted each cycle (src/main.c:184). -/
def telemetryLine (resultV_0 resultV_1 : ℚ) : String :=
  "SAR0 input: " ++ fmt2 resultV_0 ++ "V \t SAR1 input: " ++
    fmt2 resultV_1 ++ "V\r\n"

/-- The spec's §6 text-output template, following the spec's words:
`"<unit0 label>: %.2fV \t <unit1 label>: %.2fV\r\n"` — two formatted
values with a trailing `V`, tab-separated, CRLF-terminated. -/
def specFormatLine (label0 label1 s0 s1 : String) : String :=
  label0 ++ ": " ++ s0 ++ "V \t " ++ label1 ++ ": " ++ s1 ++ "V\r\n"

/-- C9: for every pair of physical values, the telemetry line is
exactly the spec's template instantiated with labels "SAR0 input" and
"SAR1 input" and the two values formatted by `fmt2`; and every `fmt2`
rendering has exactly two characters after its decimal point. -/
theorem telemetryLine_matches_spec_format (resultV_0 resultV_1 : ℚ) :
    telemetryLine resultV_0 resultV_1 =
      specFormatLine "SAR0 input" "SAR1 input"
        (fmt2 resultV_0) (fmt2 resultV_1) ∧
    ∀ q : ℚ, ∃ intPart : String, ∃ c1 c2 : Char,
      fmt2 q = intPart ++ "." ++ String.mk [c1, c2] := by
  constructor
  · have h1 : ∀ x : String, "SAR0 input" ++ (": " ++ x)
        = "SAR0 input: " ++ x := by
      intro x; rw [← String.append_assoc]; rfl
    have h2 : ∀ x : String, "SAR1 input" ++ (": " ++ x)
        = "SAR1 input: " ++ x := by
      intro x; rw [← String.append_assoc]; rfl
    have h3 : ∀ x : String, "V \t " ++ ("SAR1 input: " ++ x)
        = "V \t SAR1 input: " ++ x := by
      intro x; rw [← String.append_assoc]; rfl
    unfold telemetryLine specFormatLine
    simp only [String.append_assoc, h2, h3, h1]
  · exact fun _ => ⟨_, _, _, rfl⟩

